import Mathlib

/-!
Shallow embedding of the medallion ETL pipeline (src/etl.py, src/silver_etl.py).

Tables are Lean lists of rows; SQL NULL and pandas NaN are Option.none;
pandas coercion outcomes are modelled by a raw-cell sum type; the flat log
files and audit DB tables are explicit fields of a log state record.
-/

namespace Medallion

/-- A raw numeric cell as pandas to_numeric sees it: a parseable number,
an unparseable value, or a missing cell (NaN). -/
inductive RawNum where
  | num (q : ℚ)
  | invalid
  | null
deriving DecidableEq, Repr

/-- pandas to_numeric with errors set to coerce: failures and NaN become null. -/
def to_numeric : RawNum → Option ℚ
  | .num q => some q
  | .invalid => none
  | .null => none

/-- A calendar date (enough structure for DATE_TRUNC month). -/
structure Date where
  year : Nat
  month : Nat
  day : Nat
deriving DecidableEq, Repr

/-- A raw date cell as pandas to_datetime sees it. -/
inductive RawDate where
  | date (d : Date)
  | invalid
  | null
deriving DecidableEq, Repr

/-- pandas to_datetime with errors set to coerce: failures and NaN become null (NaT). -/
def to_datetime : RawDate → Option Date
  | .date d => some d
  | .invalid => none
  | .null => none

/-- DATE_TRUNC with a month field, cast to date: first day of the month. -/
def date_trunc_month (d : Date) : Date := ⟨d.year, d.month, 1⟩

/-- Bronze customers row. -/
structure Customer where
  customer_id : String
  customer_name : Option String
  signup_date : RawDate
deriving DecidableEq, Repr

/-- Silver customers row: signup_date coerced to a date. -/
structure SCustomer where
  customer_id : String
  customer_name : Option String
  signup_date : Option Date
deriving DecidableEq, Repr

/-- Drivers row (same shape in Bronze and Silver; no coerced column). -/
structure Driver where
  driver_id : String
  driver_name : Option String
  vehicle_type : Option String
deriving DecidableEq, Repr

/-- Bronze trips row. -/
structure Trip where
  trip_id : String
  customer_id : String
  driver_id : String
  pickup_location : Option String
  drop_location : Option String
  trip_fare : RawNum
deriving DecidableEq, Repr

/-- Silver trips row: trip_fare coerced to numeric. -/
structure STrip where
  trip_id : String
  customer_id : String
  driver_id : String
  pickup_location : Option String
  drop_location : Option String
  trip_fare : Option ℚ
deriving DecidableEq, Repr

/-- Bronze payments row. -/
structure Payment where
  payment_id : String
  trip_id : String
  trip_fare : RawNum
  mode_of_payment : Option String
deriving DecidableEq, Repr

/-- Silver payments row: trip_fare coerced to numeric. -/
structure SPayment where
  payment_id : String
  trip_id : String
  trip_fare : Option ℚ
  mode_of_payment : Option String
deriving DecidableEq, Repr

/-- The bronze drivers table: the pandas frame may or may not carry a
vehicle_type column (etl.py line 138 guards on its presence). -/
structure DriversTable where
  hasVehicleTypeCol : Bool
  rows : List Driver
deriving DecidableEq, Repr

/-- The Bronze layer read at the start of build_silver. -/
structure Bronze where
  customers : List Customer
  drivers : DriversTable
  trips : List Trip
  payments : List Payment
deriving DecidableEq, Repr

/-- The Silver layer written at the end of build_silver. -/
structure Silver where
  customers : List SCustomer
  drivers : List Driver
  trips : List STrip
  payments : List SPayment
deriving DecidableEq, Repr

/-- pandas DataFrame.drop_duplicates with a key subset, default keep first:
keeps the first row encountered for each key, in order.  seen accumulates
the keys already emitted. -/
def drop_duplicatesAux {α κ : Type} [DecidableEq κ] (key : α → κ) (seen : List κ) :
    List α → List α
  | [] => []
  | x :: xs =>
    if key x ∈ seen then drop_duplicatesAux key seen xs
    else x :: drop_duplicatesAux key (key x :: seen) xs

/-- drop_duplicates(subset=key): first occurrence per key wins. -/
def drop_duplicates {α κ : Type} [DecidableEq κ] (key : α → κ) (l : List α) : List α :=
  drop_duplicatesAux key [] l

/-- VALID_VEHICLE_TYPES from etl.py. -/
def VALID_VEHICLE_TYPES : List String := ["Sedan", "SUV", "Hatchback", "Mini"]

/-- Series.isin on a possibly-NaN cell: NaN is in no list. -/
def vehicleTypeValid (v : Option String) : Bool :=
  match v with
  | some s => VALID_VEHICLE_TYPES.contains s
  | none => false

/-- The Types step of build_silver on a customers row. -/
def coerceCustomer (c : Customer) : SCustomer :=
  ⟨c.customer_id, c.customer_name, to_datetime c.signup_date⟩

/-- The Types step of build_silver on a trips row. -/
def coerceTrip (t : Trip) : STrip :=
  ⟨t.trip_id, t.customer_id, t.driver_id, t.pickup_location, t.drop_location,
    to_numeric t.trip_fare⟩

/-- The Types step of build_silver on a payments row. -/
def coercePayment (p : Payment) : SPayment :=
  ⟨p.payment_id, p.trip_id, to_numeric p.trip_fare, p.mode_of_payment⟩

/-- build_silver (etl.py lines 117 to 174) as a pure function from the Bronze
snapshot it reads to the Silver tables it replaces: dedupe by natural keys,
coerce typed columns, enum-filter drivers when the column exists, then the
three ordered FK filters. -/
def build_silver (b : Bronze) : Silver :=
  let dc := drop_duplicates Customer.customer_id b.customers
  let dd := drop_duplicates Driver.driver_id b.drivers.rows
  let dt := drop_duplicates Trip.trip_id b.trips
  let dp := drop_duplicates Payment.payment_id b.payments
  let sc := dc.map coerceCustomer
  let st0 := dt.map coerceTrip
  let sp0 := dp.map coercePayment
  let sd :=
    if b.drivers.hasVehicleTypeCol then
      dd.filter (fun d => vehicleTypeValid d.vehicle_type)
    else dd
  let st1 := st0.filter (fun t => (sc.map SCustomer.customer_id).contains t.customer_id)
  let st := st1.filter (fun t => (sd.map Driver.driver_id).contains t.driver_id)
  let sp := sp0.filter (fun p => (st.map STrip.trip_id).contains p.trip_id)
  ⟨sc, sd, st, sp⟩

/-- SQL SUM over a nullable column: nulls are skipped; the sum of no
non-null values is NULL. -/
def sqlSum (l : List (Option ℚ)) : Option ℚ :=
  match l.filterMap id with
  | [] => none
  | vs => some vs.sum

/-- SQL AVG over a nullable column: mean of the non-null values, NULL when
there are none. -/
def sqlAvg (l : List (Option ℚ)) : Option ℚ :=
  match l.filterMap id with
  | [] => none
  | vs => some (vs.sum / (vs.length : ℚ))

/-- SQL COALESCE on a nullable numeric. -/
def coalesceQ (x : Option ℚ) (d : ℚ) : ℚ := x.getD d

/-- SQL COALESCE on a nullable text. -/
def coalesceS (x : Option String) (d : String) : String := x.getD d

/-- SQL three-valued equality on nullable numerics: NULL when either side
is NULL. -/
def sqlEqQ (a b : Option ℚ) : Option Bool :=
  match a, b with
  | some x, some y => some (decide (x = y))
  | _, _ => none

/-- One side of a LEFT JOIN for a fixed left row: the matching right rows,
or a single all-NULL right row when none match. -/
def leftJoinMatches {β : Type} (ms : List β) : List (Option β) :=
  match ms with
  | [] => [none]
  | _ => ms.map some

/-- A row of gold.fact_trips_dashboard. -/
structure FactRow where
  trip_id : String
  customer_id : String
  customer_name : Option String
  signup_date : Option Date
  signup_month : Option Date
  driver_id : String
  driver_name : Option String
  vehicle_type : Option String
  pickup_location : Option String
  drop_location : Option String
  trip_fare : Option ℚ
  paid_fare : Option ℚ
  mode_of_payment : String
  fare_matches : Option Bool
deriving DecidableEq, Repr

/-- The INSERT INTO gold.fact_trips_dashboard SELECT of build_gold (etl.py
lines 252 to 273): silver trips LEFT JOINed to silver customers, drivers and
payments, with COALESCE on mode_of_payment and the null-propagating
fare-equality flag. -/
def fact_trips_dashboard (sv : Silver) : List FactRow :=
  sv.trips.flatMap (fun t =>
    (leftJoinMatches (sv.customers.filter (fun c => c.customer_id == t.customer_id))).flatMap
      (fun c =>
        (leftJoinMatches (sv.drivers.filter (fun d => d.driver_id == t.driver_id))).flatMap
          (fun d =>
            (leftJoinMatches (sv.payments.filter (fun p => p.trip_id == t.trip_id))).map
              (fun p =>
                { trip_id := t.trip_id
                  customer_id := t.customer_id
                  customer_name := c.bind SCustomer.customer_name
                  signup_date := c.bind SCustomer.signup_date
                  signup_month := (c.bind SCustomer.signup_date).map date_trunc_month
                  driver_id := t.driver_id
                  driver_name := d.bind Driver.driver_name
                  vehicle_type := d.bind Driver.vehicle_type
                  pickup_location := t.pickup_location
                  drop_location := t.drop_location
                  trip_fare := t.trip_fare
                  paid_fare := p.bind SPayment.trip_fare
                  mode_of_payment := coalesceS (p.bind SPayment.mode_of_payment) "Unknown"
                  fare_matches := sqlEqQ (p.bind SPayment.trip_fare) t.trip_fare }))))

/-- A row of gold.driver_performance. -/
structure DriverPerfRow where
  driver_id : String
  driver_name : Option String
  vehicle_type : Option String
  trips_count : Nat
  total_fare : Option ℚ
  avg_fare : Option ℚ
deriving DecidableEq, Repr

/-- The FROM silver.trips JOIN silver.drivers of the driver_performance
query: every (trip, driver) pair agreeing on driver_id. -/
def tripsJoinDrivers (sv : Silver) : List (STrip × Driver) :=
  sv.trips.flatMap (fun t =>
    (sv.drivers.filter (fun d => d.driver_id == t.driver_id)).map (fun d => (t, d)))

/-- The GROUP BY key of driver_performance. -/
def perfKey (td : STrip × Driver) : String × Option String × Option String :=
  (td.2.driver_id, td.2.driver_name, td.2.vehicle_type)

/-- The INSERT INTO gold.driver_performance SELECT of build_gold (etl.py
lines 193 to 203): group the join by driver id, name and vehicle type;
COUNT star, SUM and AVG of trip_fare. -/
def driver_performance (sv : Silver) : List DriverPerfRow :=
  (((tripsJoinDrivers sv).map perfKey).dedup).map (fun k =>
    let grp := (tripsJoinDrivers sv).filter (fun td => decide (perfKey td = k))
    { driver_id := k.1
      driver_name := k.2.1
      vehicle_type := k.2.2
      trips_count := grp.length
      total_fare := sqlSum (grp.map (fun td => td.1.trip_fare))
      avg_fare := sqlAvg (grp.map (fun td => td.1.trip_fare)) })

/-- The nine reconciliation metrics of reconcile (etl.py lines 280 to 300). -/
structure ReconResults where
  silver_trips_sum : ℚ
  silver_payments_sum : ℚ
  gold_fact_sum : ℚ
  trips_count_silver : Nat
  payments_count_silver : Nat
  fact_trips_count_gold : Nat
  fare_diff_silver : ℚ
  silver_vs_gold_sum_diff : ℚ
  trips_count_diff : Int
deriving DecidableEq, Repr

/-- reconcile (etl.py lines 280 to 303) as a pure function of the silver
tables and the gold fact table it reads: each sum is
SELECT COALESCE(SUM(trip_fare),0), each count a COUNT star, and the three
differences are computed from them. -/
def reconcile (sv : Silver) (g : List FactRow) : ReconResults :=
  let silver_trips_sum := coalesceQ (sqlSum (sv.trips.map STrip.trip_fare)) 0
  let silver_pay_sum := coalesceQ (sqlSum (sv.payments.map SPayment.trip_fare)) 0
  let gold_fact_sum := coalesceQ (sqlSum (g.map FactRow.trip_fare)) 0
  { silver_trips_sum := silver_trips_sum
    silver_payments_sum := silver_pay_sum
    gold_fact_sum := gold_fact_sum
    trips_count_silver := sv.trips.length
    payments_count_silver := sv.payments.length
    fact_trips_count_gold := g.length
    fare_diff_silver := silver_trips_sum - silver_pay_sum
    silver_vs_gold_sum_diff := silver_trips_sum - gold_fact_sum
    trips_count_diff := (sv.trips.length : Int) - (g.length : Int) }

/-- A row of audit.rejected_rows and of a per-table dq CSV (log_dq, etl.py
lines 48 to 69). -/
structure DqRecord where
  table_name : String
  missing_values : Nat
  invalid_values : Nat
  processed_at : Nat
deriving DecidableEq, Repr

/-- A row of audit.reconciliation_log and of log/gold/reconciliation.csv. -/
structure ReconRecord where
  results : ReconResults
  checked_at : Nat
deriving DecidableEq, Repr

/-- The flat log files and audit DB tables the pipeline writes to.
dqCsv models log/silver/(table)_dq.csv per table name; snapshotCsv models
log/(layer)/(table).csv, its content a rendered line per row. -/
structure LogState where
  dqCsv : String → List DqRecord
  rejectedRowsDb : List DqRecord
  reconCsv : List ReconRecord
  reconDb : List ReconRecord
  snapshotCsv : String → String → List String

/-- log_dq (etl.py lines 48 to 69): writes the one-row frame to the per-table
CSV with to_csv (overwriting the file), and appends the same row to
audit.rejected_rows with if_exists append. -/
def log_dq (table : String) (missing invalid : Nat) (now : Nat) (s : LogState) : LogState :=
  let row : DqRecord := ⟨table, missing, invalid, now⟩
  { s with
    dqCsv := fun t => if t = table then [row] else s.dqCsv t
    rejectedRowsDb := s.rejectedRowsDb ++ [row] }

/-- log_reconciliation (etl.py lines 71 to 97): appends the record to
log/gold/reconciliation.csv (read existing, concat, rewrite) and to
audit.reconciliation_log. -/
def log_reconciliation (r : ReconResults) (now : Nat) (s : LogState) : LogState :=
  { s with
    reconCsv := s.reconCsv ++ [⟨r, now⟩]
    reconDb := s.reconDb ++ [⟨r, now⟩] }

/-- log_rows_and_checksum (etl.py lines 42 to 46): to_csv overwrites
log/(layer)/(table).csv with the current frame; row count and checksum are
then computed from that file. -/
def log_rows_and_checksum (lines : List String) (layer table : String) (s : LogState) :
    LogState :=
  { s with
    snapshotCsv := fun l t =>
      if l = layer ∧ t = table then lines else s.snapshotCsv l t }

/-- The rendered CSV lines of a table, one line per row. -/
def csvLines {α : Type} [Repr α] (rows : List α) : List String :=
  rows.map (fun r => reprStr r)

/-- Missing-value cells of a silver customers row (isna over its nullable
columns). -/
def customerMissing (c : SCustomer) : Nat :=
  (if c.customer_name.isNone then 1 else 0) + (if c.signup_date.isNone then 1 else 0)

/-- Missing-value cells of a silver drivers row. -/
def driverMissing (d : Driver) : Nat :=
  (if d.driver_name.isNone then 1 else 0) + (if d.vehicle_type.isNone then 1 else 0)

/-- The pipeline state a silver run touches: the bronze snapshot it reads,
the silver tables it replaces, and the logs. -/
structure PipeState where
  bronze : Bronze
  silver : Silver
  logs : LogState

/-- One full run of build_silver (etl.py lines 117 to 174) against the
current bronze snapshot: compute the silver tables, log the four dq
summaries, replace the silver layer, write the four snapshot CSVs. -/
def build_silver_run (now : Nat) (s : PipeState) : PipeState :=
  let sv := build_silver s.bronze
  let missing_customers := (sv.customers.map customerMissing).sum
  let missing_drivers := (sv.drivers.map driverMissing).sum
  let invalid_trip_fare := (sv.trips.filter (fun t => t.trip_fare.isNone)).length
  let invalid_pay_fare := (sv.payments.filter (fun p => p.trip_fare.isNone)).length
  let l1 := log_dq "customers" missing_customers 0 now s.logs
  let l2 := log_dq "drivers" missing_drivers 0 now l1
  let l3 := log_dq "trips" 0 invalid_trip_fare now l2
  let l4 := log_dq "payments" 0 invalid_pay_fare now l3
  let l5 := log_rows_and_checksum (csvLines sv.customers) "silver" "customers" l4
  let l6 := log_rows_and_checksum (csvLines sv.drivers) "silver" "drivers" l5
  let l7 := log_rows_and_checksum (csvLines sv.trips) "silver" "trips" l6
  let l8 := log_rows_and_checksum (csvLines sv.payments) "silver" "payments" l7
  { bronze := s.bronze, silver := sv, logs := l8 }

/-! ### Concrete snapshots used to evaluate the pipeline at fixed inputs -/

/-- A customer row from the spec's concrete scenario. -/
def exCustomer1 : Customer := ⟨"C1", some "Alice", RawDate.date ⟨2024, 1, 10⟩⟩

/-- A driver with a valid vehicle type. -/
def exDriverSedan : Driver := ⟨"D1", some "Bob", some "Sedan"⟩

/-- A driver row with a vehicle type outside the valid enumeration. -/
def exDriverVan : Driver := ⟨"D1", some "Bob", some "Van"⟩

/-- A trip referencing exCustomer1 and driver D1. -/
def exTrip1 : Trip := ⟨"T1", "C1", "D1", some "A", some "B", RawNum.num 100⟩

/-- A trip like exTrip1 whose fare fails numeric coercion. -/
def exTripBadFare : Trip := ⟨"T1", "C1", "D1", some "A", some "B", RawNum.invalid⟩

/-- A payment for trip T1. -/
def exPayment (pid : String) (q : ℚ) : Payment := ⟨pid, "T1", RawNum.num q, some "Card"⟩

/-- Bronze snapshot with one customer, one valid driver, one trip, no payment. -/
def bronzeNoPayment : Bronze := ⟨[exCustomer1], ⟨true, [exDriverSedan]⟩, [exTrip1], []⟩

/-- Bronze snapshot with two payments referencing the same trip. -/
def bronzeTwoPayments : Bronze :=
  ⟨[exCustomer1], ⟨true, [exDriverSedan]⟩, [exTrip1],
    [exPayment "P1" 100, exPayment "P2" 90]⟩

/-- Bronze snapshot whose drivers table has a valid first row and an invalid
duplicate row for the same driver_id. -/
def bronzeDupDriver : Bronze :=
  ⟨[exCustomer1], ⟨true, [exDriverSedan, exDriverVan]⟩, [exTrip1], []⟩

/-- Bronze snapshot whose only driver row (first occurrence for D1) has an
invalid vehicle type. -/
def bronzeInvalidDriver : Bronze :=
  ⟨[exCustomer1], ⟨true, [exDriverVan]⟩, [exTrip1], [exPayment "P1" 100]⟩

/-- Bronze snapshot whose drivers table has no vehicle_type column. -/
def bronzeNoCol : Bronze := ⟨[exCustomer1], ⟨false, [exDriverVan]⟩, [exTrip1], []⟩

/-- Bronze snapshot whose only trip has an uncoercible fare. -/
def bronzeBadFare : Bronze := ⟨[exCustomer1], ⟨true, [exDriverSedan]⟩, [exTripBadFare], []⟩

/-- The single Gold fact row obtained from bronzeNoPayment. -/
def exFactRow : FactRow :=
  { trip_id := "T1", customer_id := "C1", customer_name := some "Alice",
    signup_date := some ⟨2024, 1, 10⟩, signup_month := some ⟨2024, 1, 1⟩,
    driver_id := "D1", driver_name := some "Bob", vehicle_type := some "Sedan",
    pickup_location := some "A", drop_location := some "B",
    trip_fare := some 100, paid_fare := none, mode_of_payment := "Unknown",
    fare_matches := none }

/-- The single gold.driver_performance row obtained from svDriverPerf. -/
def exPerfRow : DriverPerfRow := ⟨"D1", some "Bob", some "Sedan", 2, none, none⟩

/-- An empty log state: no flat file and no audit table has any record. -/
def initLog : LogState := ⟨fun _ => [], [], [], [], fun _ _ => []⟩

/-- A pipeline state before any silver run. -/
def pipe0 : PipeState := ⟨bronzeNoPayment, ⟨[], [], [], []⟩, initLog⟩

/-- A silver snapshot with one driver and two of its trips, both with null
fares, used to evaluate driver_performance directly. -/
def svDriverPerf : Silver :=
  ⟨[], [exDriverSedan],
    [⟨"T1", "C1", "D1", some "A", some "B", none⟩,
     ⟨"T2", "C1", "D1", some "A", some "B", none⟩], []⟩

/-! ### Helper lemmas on the list operations used by the pipeline -/

theorem length_flatMap_eq {α β : Type} (l : List α) (f : α → List β) :
    (l.flatMap f).length = (l.map (fun a => (f a).length)).sum := by
  induction l with
  | nil => rfl
  | cons x xs ih => simp [List.flatMap_cons, ih]

theorem sum_map_const_eq {α : Type} (l : List α) (c : Nat) :
    (l.map (fun _ => c)).sum = l.length * c := by
  induction l with
  | nil => simp
  | cons x xs ih => simp [ih, Nat.succ_mul, Nat.add_comm]

theorem mem_drop_duplicatesAux_sub {α κ : Type} [DecidableEq κ] (key : α → κ) :
    ∀ (seen : List κ) (l : List α) (r : α), r ∈ drop_duplicatesAux key seen l → r ∈ l := by
  intro seen l
  induction l generalizing seen with
  | nil => intro r hr; simp [drop_duplicatesAux] at hr
  | cons x xs ih =>
    intro r hr
    by_cases hx : key x ∈ seen
    · simp only [drop_duplicatesAux, if_pos hx] at hr
      exact List.mem_cons_of_mem _ (ih seen r hr)
    · simp only [drop_duplicatesAux, if_neg hx] at hr
      rcases List.mem_cons.mp hr with h | h
      · exact h ▸ List.mem_cons_self x xs
      · exact List.mem_cons_of_mem _ (ih _ r h)

theorem mem_drop_duplicatesAux_find {α κ : Type} [DecidableEq κ] (key : α → κ) :
    ∀ (seen : List κ) (l : List α) (r : α), r ∈ drop_duplicatesAux key seen l →
      key r ∉ seen ∧ ∀ k, key r = k → l.find? (fun x => decide (key x = k)) = some r := by
  intro seen l
  induction l generalizing seen with
  | nil => intro r hr; simp [drop_duplicatesAux] at hr
  | cons x xs ih =>
    intro r hr
    by_cases hx : key x ∈ seen
    · simp only [drop_duplicatesAux, if_pos hx] at hr
      obtain ⟨hns, hfind⟩ := ih seen r hr
      refine ⟨hns, fun k hk => ?_⟩
      have hne : ¬ ((fun y => decide (key y = k)) x = true) := by
        simp only [decide_eq_true_eq]
        intro heq
        exact hns (hk ▸ heq ▸ hx)
      have hstep := List.find?_cons_of_neg (p := fun y => decide (key y = k)) (a := x) xs hne
      rw [hstep]
      exact hfind k hk
    · simp only [drop_duplicatesAux, if_neg hx] at hr
      rcases List.mem_cons.mp hr with h | h
      · subst h
        refine ⟨hx, fun k hk => ?_⟩
        have hp : ((fun y => decide (key y = k)) r) = true := by simp [hk]
        exact List.find?_cons_of_pos (p := fun y => decide (key y = k)) (a := r) _ hp
      · obtain ⟨hns, hfind⟩ := ih _ r h
        have hne1 : key r ≠ key x := fun he => hns (he ▸ List.mem_cons_self _ _)
        have hns2 : key r ∉ seen := fun he => hns (List.mem_cons_of_mem _ he)
        refine ⟨hns2, fun k hk => ?_⟩
        have hne : ¬ ((fun y => decide (key y = k)) x = true) := by
          simp only [decide_eq_true_eq]
          intro hxk
          exact hne1 (hk ▸ hxk.symm)
        have hstep := List.find?_cons_of_neg (p := fun y => decide (key y = k)) (a := x) xs hne
        rw [hstep]
        exact hfind k hk

theorem drop_duplicatesAux_keys_nodup {α κ : Type} [DecidableEq κ] (key : α → κ) :
    ∀ (seen : List κ) (l : List α),
      ((drop_duplicatesAux key seen l).map key).Nodup ∧
      ∀ k ∈ (drop_duplicatesAux key seen l).map key, k ∉ seen := by
  intro seen l
  induction l generalizing seen with
  | nil => exact ⟨List.nodup_nil, by simp [drop_duplicatesAux]⟩
  | cons x xs ih =>
    by_cases hx : key x ∈ seen
    · simpa only [drop_duplicatesAux, if_pos hx] using ih seen
    · obtain ⟨hnd, hdis⟩ := ih (key x :: seen)
      simp only [drop_duplicatesAux, if_neg hx, List.map_cons]
      constructor
      · refine List.nodup_cons.mpr ⟨fun hmem => ?_, hnd⟩
        exact (hdis _ hmem) (List.mem_cons_self _ _)
      · intro k hk
        rcases List.mem_cons.mp hk with h | h
        · exact h ▸ hx
        · intro hks
          exact (hdis k h) (List.mem_cons_of_mem _ hks)

theorem mem_drop_duplicatesAux_keys {α κ : Type} [DecidableEq κ] (key : α → κ) :
    ∀ (seen : List κ) (l : List α) (k : κ),
      (k ∈ (drop_duplicatesAux key seen l).map key ↔ k ∈ l.map key ∧ k ∉ seen) := by
  intro seen l
  induction l generalizing seen with
  | nil => intro k; simp [drop_duplicatesAux]
  | cons x xs ih =>
    intro k
    by_cases hx : key x ∈ seen
    · simp only [drop_duplicatesAux, if_pos hx, ih, List.map_cons, List.mem_cons]
      constructor
      · rintro ⟨hm, hns⟩; exact ⟨Or.inr hm, hns⟩
      · rintro ⟨hm | hm, hns⟩
        · exact absurd (hm ▸ hx) hns
        · exact ⟨hm, hns⟩
    · simp only [drop_duplicatesAux, if_neg hx, List.map_cons, List.mem_cons, ih]
      constructor
      · rintro (h | ⟨hm, hns⟩)
        · exact ⟨Or.inl h, h ▸ hx⟩
        · exact ⟨Or.inr hm, fun hs => hns (Or.inr hs)⟩
      · rintro ⟨hm | hm, hns⟩
        · exact Or.inl hm
        · by_cases hkx : k = key x
          · exact Or.inl hkx
          · exact Or.inr ⟨hm, fun hs => hs.elim hkx hns⟩

theorem drop_duplicates_keys_nodup {α κ : Type} [DecidableEq κ] (key : α → κ) (l : List α) :
    ((drop_duplicates key l).map key).Nodup :=
  (drop_duplicatesAux_keys_nodup key [] l).1

theorem mem_drop_duplicates_find {α κ : Type} [DecidableEq κ] (key : α → κ) (l : List α)
    (r : α) (hr : r ∈ drop_duplicates key l) (k : κ) (hk : key r = k) :
    l.find? (fun x => decide (key x = k)) = some r :=
  (mem_drop_duplicatesAux_find key [] l r hr).2 k hk

theorem length_filter_keyeq_le_one {α κ : Type} [BEq κ] [LawfulBEq κ] (key : α → κ)
    (l : List α) (h : (l.map key).Nodup) (k : κ) :
    (l.filter (fun x => key x == k)).length ≤ 1 := by
  induction l with
  | nil => simp
  | cons x xs ih =>
    simp only [List.map_cons, List.nodup_cons] at h
    obtain ⟨hx, hnd⟩ := h
    by_cases hxk : (key x == k) = true
    · have hkeq : key x = k := eq_of_beq hxk
      have hnil : xs.filter (fun y => key y == k) = [] := by
        refine List.filter_eq_nil_iff.mpr (fun y hy => ?_)
        simp only [beq_iff_eq]
        intro hyk
        have hmem : key y ∈ List.map key xs := List.mem_map_of_mem key hy
        rw [hyk, ← hkeq] at hmem
        exact hx hmem
      simp [List.filter_cons, hxk, hnil]
    · simpa [List.filter_cons, hxk] using ih hnd

theorem filter_keyeq_self {α κ : Type} [BEq κ] [LawfulBEq κ] (key : α → κ)
    (l : List α) (h : (l.map key).Nodup) (a : α) (ha : a ∈ l) :
    l.filter (fun x => key x == key a) = [a] := by
  induction l with
  | nil => simp at ha
  | cons x xs ih =>
    simp only [List.map_cons, List.nodup_cons] at h
    obtain ⟨hx, hnd⟩ := h
    rcases List.mem_cons.mp ha with rfl | hmem
    · have hnil : xs.filter (fun y => key y == key a) = [] := by
        refine List.filter_eq_nil_iff.mpr (fun y hy => ?_)
        simp only [beq_iff_eq]
        intro hyk
        have hmem : key y ∈ List.map key xs := List.mem_map_of_mem key hy
        rw [hyk] at hmem
        exact hx hmem
      simp [List.filter_cons, hnil]
    · have hne : ¬ ((key x == key a) = true) := by
        simp only [beq_iff_eq]
        intro hxa
        have hmem2 : key a ∈ List.map key xs := List.mem_map_of_mem key hmem
        rw [← hxa] at hmem2
        exact hx hmem2
      have hstep := List.filter_cons_of_neg (p := fun y => key y == key a) (l := xs) (a := x) hne
      rw [hstep]
      exact ih hnd hmem

theorem length_leftJoinMatches {β : Type} (ms : List β) :
    (leftJoinMatches ms).length = max 1 ms.length := by
  cases ms with
  | nil => rfl
  | cons m ms => simp [leftJoinMatches, Nat.max_eq_right (Nat.succ_le_succ (Nat.zero_le _))]

theorem coalesceQ_sqlSum (l : List (Option ℚ)) :
    coalesceQ (sqlSum l) 0 = (l.filterMap id).sum := by
  rcases hl : l.filterMap id with _ | ⟨v, vs⟩
  · simp [coalesceQ, sqlSum, hl]
  · simp [coalesceQ, sqlSum, hl]

theorem sqlSum_eq_ite (l : List (Option ℚ)) :
    sqlSum l = if l.filterMap id = [] then none else some (l.filterMap id).sum := by
  rcases hl : l.filterMap id with _ | ⟨v, vs⟩
  · simp [sqlSum, hl]
  · simp [sqlSum, hl]

/-! ### Further helper lemmas about build_silver -/

theorem silver_customers_ids (b : Bronze) :
    (build_silver b).customers.map SCustomer.customer_id =
      (drop_duplicates Customer.customer_id b.customers).map Customer.customer_id := by
  show ((drop_duplicates Customer.customer_id b.customers).map coerceCustomer).map
      SCustomer.customer_id = _
  rw [List.map_map]
  rfl

theorem silver_customers_ids_nodup (b : Bronze) :
    ((build_silver b).customers.map SCustomer.customer_id).Nodup := by
  rw [silver_customers_ids]
  exact drop_duplicates_keys_nodup Customer.customer_id b.customers

theorem silver_drivers_ids_nodup (b : Bronze) :
    ((build_silver b).drivers.map Driver.driver_id).Nodup := by
  show ((if b.drivers.hasVehicleTypeCol then
      (drop_duplicates Driver.driver_id b.drivers.rows).filter
        (fun d => vehicleTypeValid d.vehicle_type)
    else drop_duplicates Driver.driver_id b.drivers.rows).map Driver.driver_id).Nodup
  have hnd := drop_duplicates_keys_nodup Driver.driver_id b.drivers.rows
  cases hcol : b.drivers.hasVehicleTypeCol with
  | false => simpa using hnd
  | true =>
    simp only [if_pos]
    exact hnd.sublist ((List.filter_sublist _).map Driver.driver_id)

/-! ### Claim theorems -/

/-- C6: for an entity table with rows l and natural key values given by key,
the dedup step of the Silver build (drop_duplicates, applied to all four
entities at etl.py lines 127 to 130) outputs exactly as many rows as there
are distinct key values, and every output row is the first row of the input
carrying its key. -/
theorem C6_dedup_first_wins {α κ : Type} [DecidableEq κ] (key : α → κ) (l : List α) :
    (drop_duplicates key l).length = (l.map key).toFinset.card ∧
    ∀ r ∈ drop_duplicates key l, l.find? (fun x => decide (key x = key r)) = some r := by
  constructor
  · have hnd := drop_duplicates_keys_nodup key l
    have hlen : (drop_duplicates key l).length = ((drop_duplicates key l).map key).length :=
      (List.length_map _ _).symm
    rw [hlen, ← List.toFinset_card_of_nodup hnd]
    congr 1
    apply Finset.ext
    intro k
    simp only [List.mem_toFinset]
    rw [show drop_duplicates key l = drop_duplicatesAux key [] l from rfl,
      mem_drop_duplicatesAux_keys]
    simp
  · intro r hr
    exact mem_drop_duplicates_find key l r hr (key r) rfl

/-- C8: the reconciliation metric fare_diff_silver equals exactly the sum of
the non-null silver trip fares minus the sum of the non-null silver payment
fares, for every silver state and gold fact table, including empty layers
(COALESCE turns the empty SUM into 0). -/
theorem C8_fare_diff_exact (sv : Silver) (g : List FactRow) :
    (reconcile sv g).fare_diff_silver =
      ((sv.trips.map STrip.trip_fare).filterMap id).sum -
        ((sv.payments.map SPayment.trip_fare).filterMap id).sum := by
  show coalesceQ (sqlSum (sv.trips.map STrip.trip_fare)) 0 -
      coalesceQ (sqlSum (sv.payments.map SPayment.trip_fare)) 0 = _
  rw [coalesceQ_sqlSum, coalesceQ_sqlSum]

/-- C9: the type-coercion step of the Silver build is a total function (so it
can raise no exception): it keeps every row, leaves all non-coerced fields of
each row unchanged, sends a parseable cell to its value and an unparseable or
missing cell to null. -/
theorem C9_coercion_total (customers : List Customer) (trips : List Trip)
    (payments : List Payment) :
    ((trips.map coerceTrip).length = trips.length ∧
      (payments.map coercePayment).length = payments.length ∧
      (customers.map coerceCustomer).length = customers.length) ∧
    (∀ t ∈ trips, (coerceTrip t).trip_id = t.trip_id ∧
      (coerceTrip t).customer_id = t.customer_id ∧
      (coerceTrip t).driver_id = t.driver_id ∧
      (coerceTrip t).pickup_location = t.pickup_location ∧
      (coerceTrip t).drop_location = t.drop_location ∧
      (coerceTrip t).trip_fare = to_numeric t.trip_fare) ∧
    (∀ p ∈ payments, (coercePayment p).payment_id = p.payment_id ∧
      (coercePayment p).trip_id = p.trip_id ∧
      (coercePayment p).mode_of_payment = p.mode_of_payment ∧
      (coercePayment p).trip_fare = to_numeric p.trip_fare) ∧
    (∀ c ∈ customers, (coerceCustomer c).customer_id = c.customer_id ∧
      (coerceCustomer c).customer_name = c.customer_name ∧
      (coerceCustomer c).signup_date = to_datetime c.signup_date) ∧
    (∀ v : RawNum, to_numeric v = none ↔ v = RawNum.invalid ∨ v = RawNum.null) ∧
    (∀ rd : RawDate, to_datetime rd = none ↔ rd = RawDate.invalid ∨ rd = RawDate.null) ∧
    (∀ q : ℚ, to_numeric (RawNum.num q) = some q) ∧
    (∀ d : Date, to_datetime (RawDate.date d) = some d) := by
  refine ⟨⟨List.length_map _ _, List.length_map _ _, List.length_map _ _⟩,
    fun t _ => ⟨rfl, rfl, rfl, rfl, rfl, rfl⟩,
    fun p _ => ⟨rfl, rfl, rfl, rfl⟩,
    fun c _ => ⟨rfl, rfl, rfl⟩, ?_, ?_, fun q => rfl, fun d => rfl⟩
  · intro v; cases v <;> simp [to_numeric]
  · intro rd; cases rd <;> simp [to_datetime]

/-- C3 (amended): the audit DB tables (audit.rejected_rows via log_dq,
audit.reconciliation_log via log_reconciliation) and the flat reconciliation
CSV are append-only; the per-table dq CSV and the per-table snapshot CSV are
instead replaced wholesale by each run. -/
theorem C3_audit_append_only (s : LogState) (table : String) (m i now : Nat)
    (r : ReconResults) (layer tb : String) (lines : List String) :
    (log_dq table m i now s).rejectedRowsDb = s.rejectedRowsDb ++ [⟨table, m, i, now⟩] ∧
    (log_dq table m i now s).dqCsv table = [⟨table, m, i, now⟩] ∧
    (log_reconciliation r now s).reconCsv = s.reconCsv ++ [⟨r, now⟩] ∧
    (log_reconciliation r now s).reconDb = s.reconDb ++ [⟨r, now⟩] ∧
    (log_rows_and_checksum lines layer tb s).snapshotCsv layer tb = lines := by
  refine ⟨rfl, ?_, rfl, rfl, ?_⟩
  · simp [log_dq]
  · simp [log_rows_and_checksum]

/-- C3 counterexample: the per-table dq CSV is not append-only. After a first
silver run at time 0 the customers dq file holds the run-0 record; after a
second run at time 1 that record has been removed and replaced, so audit
records did not accumulate. -/
theorem C3_audit_append_only_counterexample :
    ((build_silver_run 0 pipe0).logs.dqCsv "customers" =
      [{ table_name := "customers", missing_values := 0, invalid_values := 0,
         processed_at := 0 }]) ∧
    ((build_silver_run 1 (build_silver_run 0 pipe0)).logs.dqCsv "customers" =
      [{ table_name := "customers", missing_values := 0, invalid_values := 0,
         processed_at := 1 }]) ∧
    ({ table_name := "customers", missing_values := 0, invalid_values := 0,
       processed_at := 0 } : DqRecord) ∉
      (build_silver_run 1 (build_silver_run 0 pipe0)).logs.dqCsv "customers" := by
  decide

/-- C10: when the bronze drivers frame has no vehicle_type column, the enum
step is skipped entirely: silver drivers are exactly the deduplicated driver
rows (each one kept whatever its vehicle type), and the trips FK filter tests
driver_id membership against that full deduplicated set. -/
theorem C10_missing_vehicle_type_col (b : Bronze)
    (hcol : b.drivers.hasVehicleTypeCol = false) :
    (build_silver b).drivers = drop_duplicates Driver.driver_id b.drivers.rows ∧
    (∀ d ∈ drop_duplicates Driver.driver_id b.drivers.rows, d ∈ (build_silver b).drivers) ∧
    (build_silver b).trips =
      (((drop_duplicates Trip.trip_id b.trips).map coerceTrip).filter
        (fun t => (((drop_duplicates Customer.customer_id b.customers).map
            coerceCustomer).map SCustomer.customer_id).contains t.customer_id)).filter
        (fun t => ((drop_duplicates Driver.driver_id b.drivers.rows).map
            Driver.driver_id).contains t.driver_id) := by
  have hdr : (build_silver b).drivers = drop_duplicates Driver.driver_id b.drivers.rows := by
    simp [build_silver, hcol]
  refine ⟨hdr, fun d hd => hdr ▸ hd, ?_⟩
  simp [build_silver, hcol]

/-- C10 witness: on a bronze snapshot with no vehicle_type column whose only
driver row has vehicle type Van, the driver is nevertheless kept. -/
theorem C10_missing_vehicle_type_col_witness :
    (build_silver bronzeNoCol).drivers =
      drop_duplicates Driver.driver_id bronzeNoCol.drivers.rows :=
  (C10_missing_vehicle_type_col bronzeNoCol rfl).1

/-- C5: the Silver build is idempotent and deterministic. A second run against
the unchanged bronze snapshot (at any timestamp) replaces the silver tables
with identical contents and rewrites the four silver snapshot CSVs with
byte-identical lines, so the row counts and checksums derived from those
files are identical too. -/
theorem C5_silver_idempotent (s : PipeState) (u v : Nat) :
    (build_silver_run v (build_silver_run u s)).silver = (build_silver_run u s).silver ∧
    (∀ tb : String,
      (build_silver_run v (build_silver_run u s)).logs.snapshotCsv "silver" tb =
        (build_silver_run u s).logs.snapshotCsv "silver" tb) ∧
    (build_silver_run v (build_silver_run u s)).bronze = (build_silver_run u s).bronze := by
  refine ⟨rfl, ?_, rfl⟩
  have hsnap : ∀ (w : Nat) (st : PipeState) (l t : String),
      (build_silver_run w st).logs.snapshotCsv l t =
        if l = "silver" ∧ t = "payments" then csvLines (build_silver st.bronze).payments
        else if l = "silver" ∧ t = "trips" then csvLines (build_silver st.bronze).trips
        else if l = "silver" ∧ t = "drivers" then csvLines (build_silver st.bronze).drivers
        else if l = "silver" ∧ t = "customers" then
          csvLines (build_silver st.bronze).customers
        else st.logs.snapshotCsv l t := fun _ _ _ _ => rfl
  intro tb
  rw [hsnap, hsnap]
  split_ifs <;> rfl

theorem flatMap_leftJoin_length {β₁ β₂ β₃ γ : Type} (l1 : List β₁) (l2 : List β₂)
    (l3 : List β₃) (f : Option β₁ → Option β₂ → Option β₃ → γ)
    (h1 : l1.length ≤ 1) (h2 : l2.length ≤ 1) :
    ((leftJoinMatches l1).flatMap (fun c => (leftJoinMatches l2).flatMap
      (fun d => (leftJoinMatches l3).map (f c d)))).length = max 1 l3.length := by
  rw [length_flatMap_eq]
  have hinner : ∀ c ∈ leftJoinMatches l1,
      ((leftJoinMatches l2).flatMap (fun d => (leftJoinMatches l3).map (f c d))).length =
        (leftJoinMatches l2).length * (leftJoinMatches l3).length := by
    intro c _
    rw [length_flatMap_eq]
    have hmap : ∀ d ∈ leftJoinMatches l2,
        ((leftJoinMatches l3).map (f c d)).length = (leftJoinMatches l3).length :=
      fun d _ => List.length_map _ _
    rw [List.map_congr_left hmap, sum_map_const_eq]
  rw [List.map_congr_left hinner, sum_map_const_eq]
  rw [length_leftJoinMatches, length_leftJoinMatches, length_leftJoinMatches]
  have e1 : max 1 l1.length = 1 := by
    rcases Nat.le_one_iff_eq_zero_or_eq_one.mp h1 with h | h <;> simp [h]
  have e2 : max 1 l2.length = 1 := by
    rcases Nat.le_one_iff_eq_zero_or_eq_one.mp h2 with h | h <;> simp [h]
  rw [e1, e2, Nat.one_mul, Nat.one_mul]

theorem silver_trips_driver_fk (b : Bronze) (t : STrip)
    (ht : t ∈ (build_silver b).trips) :
    ∃ d ∈ (build_silver b).drivers, d.driver_id = t.driver_id := by
  have ht2 : t ∈ ((((drop_duplicates Trip.trip_id b.trips).map coerceTrip).filter
      (fun x => (((drop_duplicates Customer.customer_id b.customers).map
        coerceCustomer).map SCustomer.customer_id).contains x.customer_id)).filter
      (fun x => ((build_silver b).drivers.map Driver.driver_id).contains x.driver_id)) := ht
  have hcont := (List.mem_filter.mp ht2).2
  have hmem : t.driver_id ∈ (build_silver b).drivers.map Driver.driver_id :=
    List.elem_iff.mp hcont
  obtain ⟨d, hd, hid⟩ := List.mem_map.mp hmem
  exact ⟨d, hd, hid⟩

theorem silver_payments_trip_fk (b : Bronze) (p : SPayment)
    (hp : p ∈ (build_silver b).payments) :
    ∃ t ∈ (build_silver b).trips, t.trip_id = p.trip_id := by
  have hp2 : p ∈ (((drop_duplicates Payment.payment_id b.payments).map coercePayment).filter
      (fun x => ((build_silver b).trips.map STrip.trip_id).contains x.trip_id)) := hp
  have hcont := (List.mem_filter.mp hp2).2
  have hmem : p.trip_id ∈ (build_silver b).trips.map STrip.trip_id :=
    List.elem_iff.mp hcont
  obtain ⟨t, ht, hid⟩ := List.mem_map.mp hmem
  exact ⟨t, ht, hid⟩

/-- C1 (amended): in every Gold fact row, fare_matches is true iff a Payment
was joined and its fare is a non-null value exactly equal to the trip's
non-null fare; for a Trip with no Payment the flag is null (the SQL equality
propagates NULL), not false. The second conjunct pins the flag down in the
remaining cases: it is null exactly when the joined paid fare or the trip
fare is null, so it can never be false without a joined non-null fare. -/
theorem C1_fare_matches (sv : Silver) (row : FactRow)
    (hrow : row ∈ fact_trips_dashboard sv) :
    (row.fare_matches = some true ↔
      ∃ q : ℚ, row.paid_fare = some q ∧ row.trip_fare = some q) ∧
    (row.fare_matches = none ↔ row.paid_fare = none ∨ row.trip_fare = none) ∧
    ((∀ p ∈ sv.payments, p.trip_id ≠ row.trip_id) →
      row.paid_fare = none ∧ row.fare_matches = none) := by
  simp only [fact_trips_dashboard, List.mem_flatMap, List.mem_map] at hrow
  obtain ⟨t, ht, c, hc, d, hd, p, hp, hrow⟩ := hrow
  subst hrow
  refine ⟨?_, ?_, ?_⟩
  · show sqlEqQ (p.bind SPayment.trip_fare) t.trip_fare = some true ↔
      ∃ q : ℚ, p.bind SPayment.trip_fare = some q ∧ t.trip_fare = some q
    rcases hpf : p.bind SPayment.trip_fare with _ | x <;>
      rcases htf : t.trip_fare with _ | y <;>
        simp [sqlEqQ, eq_comm]
  · show sqlEqQ (p.bind SPayment.trip_fare) t.trip_fare = none ↔
      p.bind SPayment.trip_fare = none ∨ t.trip_fare = none
    rcases hpf : p.bind SPayment.trip_fare with _ | x <;>
      rcases htf : t.trip_fare with _ | y <;>
        simp [sqlEqQ]
  · show (∀ x ∈ sv.payments, x.trip_id ≠ t.trip_id) →
      p.bind SPayment.trip_fare = none ∧
        sqlEqQ (p.bind SPayment.trip_fare) t.trip_fare = none
    intro hnone
    have hfil : sv.payments.filter (fun x => x.trip_id == t.trip_id) = [] := by
      refine List.filter_eq_nil_iff.mpr (fun x hx => ?_)
      simp only [beq_iff_eq]
      exact hnone x hx
    rw [hfil] at hp
    simp only [leftJoinMatches, List.mem_singleton] at hp
    subst hp
    exact ⟨rfl, rfl⟩

/-- C1 counterexample: from a bronze snapshot whose only trip has no payment,
the built Gold fact table's single row carries fare_matches = null, not
false. -/
theorem C1_fare_matches_counterexample :
    (build_silver bronzeNoPayment).payments = [] ∧
    ((fact_trips_dashboard (build_silver bronzeNoPayment)).map FactRow.fare_matches) =
      [none] ∧
    (none : Option Bool) ≠ some false := by
  decide

/-- C1 witness: the amended statement evaluated on the bronzeNoPayment
snapshot's single fact row. -/
theorem C1_fare_matches_witness :
    (exFactRow.fare_matches = some true ↔
      ∃ q : ℚ, exFactRow.paid_fare = some q ∧ exFactRow.trip_fare = some q) ∧
    (exFactRow.fare_matches = none ↔
      exFactRow.paid_fare = none ∨ exFactRow.trip_fare = none) ∧
    ((∀ p ∈ (build_silver bronzeNoPayment).payments, p.trip_id ≠ exFactRow.trip_id) →
      exFactRow.paid_fare = none ∧ exFactRow.fare_matches = none) :=
  C1_fare_matches (build_silver bronzeNoPayment) exFactRow (by decide)

/-- C2 (amended): each Silver Trip contributes max(1, number of Silver
Payments with its trip_id) rows to the Gold fact table, because the Silver
build deduplicates payments by payment_id only; the fact row count equals the
Silver Trips row count exactly when every trip has at most one payment. -/
theorem C2_fact_row_count (b : Bronze) :
    (fact_trips_dashboard (build_silver b)).length =
      ((build_silver b).trips.map (fun t =>
        max 1 ((build_silver b).payments.filter
          (fun p => p.trip_id == t.trip_id)).length)).sum ∧
    ((∀ t ∈ (build_silver b).trips,
        ((build_silver b).payments.filter (fun p => p.trip_id == t.trip_id)).length ≤ 1) →
      (fact_trips_dashboard (build_silver b)).length = (build_silver b).trips.length) := by
  have hc := silver_customers_ids_nodup b
  have hd := silver_drivers_ids_nodup b
  have hmain : (fact_trips_dashboard (build_silver b)).length =
      ((build_silver b).trips.map (fun t =>
        max 1 ((build_silver b).payments.filter
          (fun p => p.trip_id == t.trip_id)).length)).sum := by
    simp only [fact_trips_dashboard]
    rw [length_flatMap_eq]
    congr 1
    refine List.map_congr_left (fun t _ => ?_)
    refine flatMap_leftJoin_length _ _ _ _ ?_ ?_
    · exact length_filter_keyeq_le_one SCustomer.customer_id _ hc t.customer_id
    · exact length_filter_keyeq_le_one Driver.driver_id _ hd t.driver_id
  refine ⟨hmain, fun hone => ?_⟩
  rw [hmain]
  have hcst : ∀ t ∈ (build_silver b).trips,
      max 1 ((build_silver b).payments.filter
        (fun p => p.trip_id == t.trip_id)).length = 1 := by
    intro t ht
    have := hone t ht
    omega
  rw [List.map_congr_left hcst, sum_map_const_eq, Nat.mul_one]

/-- C2 counterexample: a bronze snapshot with two payments (distinct
payment_ids) on the same trip yields one Silver trip but two Gold fact rows,
so the fact table is not one row per Trip. -/
theorem C2_fact_row_count_counterexample :
    (build_silver bronzeTwoPayments).trips.length = 1 ∧
    (fact_trips_dashboard (build_silver bronzeTwoPayments)).length = 2 := by
  decide

/-- C4 (amended): if the first bronze drivers row carrying a given driver_id
has an invalid vehicle_type (hence dedup keeps it and the enum filter then
drops the id entirely), then no silver driver has that id, every trip with
that driver_id is excluded from Silver Trips, and every silver payment
references a surviving silver trip, all of which have other driver ids. -/
theorem C4_cascading_exclusion (b : Bronze) (i : String) (e : Driver)
    (hcol : b.drivers.hasVehicleTypeCol = true)
    (hfirst : b.drivers.rows.find? (fun d => decide (d.driver_id = i)) = some e)
    (hinv : vehicleTypeValid e.vehicle_type = false) :
    (∀ d ∈ (build_silver b).drivers, d.driver_id ≠ i) ∧
    (∀ t ∈ (build_silver b).trips, t.driver_id ≠ i) ∧
    (∀ p ∈ (build_silver b).payments,
      ∃ t ∈ (build_silver b).trips, t.trip_id = p.trip_id ∧ t.driver_id ≠ i) := by
  have hdreq : (build_silver b).drivers =
      (drop_duplicates Driver.driver_id b.drivers.rows).filter
        (fun x => vehicleTypeValid x.vehicle_type) := by
    simp [build_silver, hcol]
  have hdrv : ∀ d ∈ (build_silver b).drivers, d.driver_id ≠ i := by
    intro d hd hdi
    rw [hdreq] at hd
    obtain ⟨hmem, hval⟩ := List.mem_filter.mp hd
    have hfind := mem_drop_duplicates_find Driver.driver_id b.drivers.rows d hmem i hdi
    rw [hfirst] at hfind
    have hde : e = d := Option.some_inj.mp hfind
    rw [← hde, hinv] at hval
    exact Bool.false_ne_true hval
  have htrip : ∀ t ∈ (build_silver b).trips, t.driver_id ≠ i := by
    intro t ht hti
    obtain ⟨d, hd, hid⟩ := silver_trips_driver_fk b t ht
    exact hdrv d hd (hid.trans hti)
  refine ⟨hdrv, htrip, fun p hp => ?_⟩
  obtain ⟨t, ht, hid⟩ := silver_payments_trip_fk b p hp
  exact ⟨t, ht, hid, htrip t ht⟩

/-- C4 counterexample: the claim as stated fails when a valid row for the
same driver_id precedes the invalid one. bronzeDupDriver contains the driver
row (D1, Van) whose vehicle_type is invalid, yet the trip referencing D1
survives into Silver Trips because dedup kept the earlier (D1, Sedan) row. -/
theorem C4_cascading_exclusion_counterexample :
    exDriverVan ∈ bronzeDupDriver.drivers.rows ∧
    vehicleTypeValid exDriverVan.vehicle_type = false ∧
    ((build_silver bronzeDupDriver).trips.map STrip.driver_id) = ["D1"] := by
  decide

/-- C4 witness: the amended statement evaluated on bronzeInvalidDriver, whose
first (and only) D1 row is the invalid Van row. -/
theorem C4_cascading_exclusion_witness :
    (∀ d ∈ (build_silver bronzeInvalidDriver).drivers, d.driver_id ≠ "D1") ∧
    (∀ t ∈ (build_silver bronzeInvalidDriver).trips, t.driver_id ≠ "D1") ∧
    (∀ p ∈ (build_silver bronzeInvalidDriver).payments,
      ∃ t ∈ (build_silver bronzeInvalidDriver).trips,
        t.trip_id = p.trip_id ∧ t.driver_id ≠ "D1") :=
  C4_cascading_exclusion bronzeInvalidDriver "D1" exDriverVan rfl (by decide) (by decide)

theorem joined_filter_key (drivers : List Driver)
    (hU : (drivers.map Driver.driver_id).Nodup) (d : Driver) (hd : d ∈ drivers) :
    ∀ (trips : List STrip),
      ((trips.flatMap (fun t => (drivers.filter (fun x => x.driver_id == t.driver_id)).map
          (fun x => (t, x)))).filter
        (fun td => decide (perfKey td = (d.driver_id, d.driver_name, d.vehicle_type)))) =
      (trips.filter (fun t => t.driver_id == d.driver_id)).map (fun t => (t, d)) := by
  intro trips
  induction trips with
  | nil => rfl
  | cons t ts ih =>
    rw [List.flatMap_cons, List.filter_append, ih]
    by_cases hmatch : t.driver_id = d.driver_id
    · have hfd : drivers.filter (fun x => x.driver_id == t.driver_id) = [d] := by
        rw [hmatch]
        exact filter_keyeq_self Driver.driver_id drivers hU d hd
      rw [hfd]
      have hP : decide (perfKey (t, d) = (d.driver_id, d.driver_name, d.vehicle_type)) =
          true := by simp [perfKey]
      simp [List.filter_cons, hP, hmatch]
    · have hnil : (((drivers.filter (fun x => x.driver_id == t.driver_id)).map
          (fun x => (t, x))).filter
          (fun td => decide (perfKey td = (d.driver_id, d.driver_name, d.vehicle_type)))) =
          [] := by
        refine List.filter_eq_nil_iff.mpr (fun td htd => ?_)
        obtain ⟨x, hx, rfl⟩ := List.mem_map.mp htd
        have hxid : x.driver_id = t.driver_id := by
          have hb := (List.mem_filter.mp hx).2
          simpa [beq_iff_eq] using hb
        simp only [perfKey, decide_eq_true_eq, Prod.mk.injEq, not_and]
        intro hk
        exact absurd (hxid ▸ hk) hmatch
      rw [hnil]
      have hne : ¬ ((t.driver_id == d.driver_id) = true) := by
        simpa [beq_iff_eq] using hmatch
      simp [List.filter_cons, hne]

/-- C7 (amended): for every row of gold.driver_performance (given silver
driver ids are unique, as the Silver build guarantees), trips_count equals
the number of Silver Trips with that driver_id, null-fare trips included;
total_fare equals the sum of the non-null fares of those trips when at least
one fare is non-null, and is SQL NULL (not 0) when every fare is null. -/
theorem C7_driver_performance (sv : Silver)
    (hU : (sv.drivers.map Driver.driver_id).Nodup)
    (r : DriverPerfRow) (hr : r ∈ driver_performance sv) :
    r.trips_count = (sv.trips.filter (fun t => t.driver_id == r.driver_id)).length ∧
    r.total_fare = (if ((sv.trips.filter (fun t => t.driver_id == r.driver_id)).map
        STrip.trip_fare).filterMap id = [] then none
      else some (((sv.trips.filter (fun t => t.driver_id == r.driver_id)).map
        STrip.trip_fare).filterMap id).sum) := by
  simp only [driver_performance, List.mem_map] at hr
  obtain ⟨k, hk, hr⟩ := hr
  have hk2 : k ∈ (tripsJoinDrivers sv).map perfKey := List.mem_dedup.mp hk
  obtain ⟨td, htd, hkey⟩ := List.mem_map.mp hk2
  obtain ⟨t0, _, hmem⟩ := List.mem_flatMap.mp htd
  obtain ⟨d, hdf, htd2⟩ := List.mem_map.mp hmem
  have hd : d ∈ sv.drivers := (List.mem_filter.mp hdf).1
  subst htd2
  subst hkey
  subst hr
  have hTJD : tripsJoinDrivers sv = sv.trips.flatMap (fun t =>
      (sv.drivers.filter (fun x => x.driver_id == t.driver_id)).map (fun x => (t, x))) := rfl
  have hgrp := joined_filter_key sv.drivers hU d hd sv.trips
  constructor
  · show ((tripsJoinDrivers sv).filter
        (fun td => decide (perfKey td = (d.driver_id, d.driver_name, d.vehicle_type)))).length =
      (sv.trips.filter (fun t => t.driver_id == d.driver_id)).length
    rw [hTJD, hgrp]
    exact List.length_map _ _
  · show sqlSum (((tripsJoinDrivers sv).filter
        (fun td => decide (perfKey td = (d.driver_id, d.driver_name, d.vehicle_type)))).map
        (fun td => td.1.trip_fare)) = _
    rw [hTJD, hgrp, List.map_map, sqlSum_eq_ite]
    rfl

/-- C7 counterexample: a driver whose only Silver trip has a null fare gets
total_fare = NULL from SQL SUM, while the sum of the (zero) non-null fares of
its trips is 0; NULL and 0 differ. -/
theorem C7_driver_performance_counterexample :
    (driver_performance (build_silver bronzeBadFare)).map DriverPerfRow.total_fare =
      [none] ∧
    ((((build_silver bronzeBadFare).trips.filter (fun t => t.driver_id == "D1")).map
        STrip.trip_fare).filterMap id).sum = 0 ∧
    (none : Option ℚ) ≠ some 0 := by
  decide

/-- C7 witness: the amended statement evaluated on a silver snapshot with one
driver and two of its trips, both fares null. -/
theorem C7_driver_performance_witness :
    exPerfRow.trips_count = (svDriverPerf.trips.filter
      (fun t => t.driver_id == exPerfRow.driver_id)).length ∧
    exPerfRow.total_fare = (if ((svDriverPerf.trips.filter
        (fun t => t.driver_id == exPerfRow.driver_id)).map
        STrip.trip_fare).filterMap id = [] then none
      else some (((svDriverPerf.trips.filter
        (fun t => t.driver_id == exPerfRow.driver_id)).map
        STrip.trip_fare).filterMap id).sum) :=
  C7_driver_performance svDriverPerf (by decide) exPerfRow (by decide)

end Medallion
